import Mathlib

/-!
Shallow embedding of the hyperswitch connector-transformation core:
the Opayo connector transformer (`crates/router/src/connector/opayo/transformers.rs`)
and the top-level error taxonomy (`crates/router/src/core/errors.rs`),
together with theorems checking the specification's claims against it.
-/

namespace Hyperswitch

/-! ## Domain data model -/

/-- Secret container (`masking::Secret`): wraps a sensitive value. -/
structure Secret (α : Type) where
  expose : α
deriving DecidableEq, Repr

/-- Currency code enumeration (closed, ISO-4217-like); only the variants the
theorems exercise are listed, the transformer treats it opaquely via its
debug rendering. -/
inductive Currency where
  | USD
  | EUR
  | GBP
deriving DecidableEq, Repr

/-- Rendering of a currency by the Rust `format!("\x7b:?\x7d", currency)` call. -/
def Currency.debugFmt : Currency → String
  | .USD => "USD"
  | .EUR => "EUR"
  | .GBP => "GBP"

/-- Card payment-method data (all fields secret-wrapped). -/
structure CardData where
  card_number : Secret String
  card_exp_month : Secret String
  card_exp_year : Secret String
  card_holder_name : Secret String
  card_cvc : Secret String
deriving DecidableEq, Repr

/-- Modelled from the spec: the polymorphic payment-method variant of the
Domain Transaction Model (spec section 3: a card variant plus further variants
such as wallets and bank transfers); the full `api::PaymentMethod` enum lives
outside the shown source, and the Opayo transformer matches only `Card(_)`
against a catch-all. -/
inductive PaymentMethod where
  | Card : CardData → PaymentMethod
  | Wallet : PaymentMethod
  | BankTransfer : PaymentMethod
  | PayLater : PaymentMethod
deriving DecidableEq, Repr

/-- Billing address details (`api::AddressDetails`), all fields optional. -/
structure AddressDetails where
  line1 : Option (Secret String)
  city : Option String
  country : Option String
  zip : Option (Secret String)
  first_name : Option (Secret String)
  last_name : Option (Secret String)
deriving DecidableEq, Repr

/-- A billing entry (`api::Address`): the inner address is itself optional. -/
structure AddressEntry where
  address : Option AddressDetails
deriving DecidableEq, Repr

/-- The address context attached to a payment attempt. -/
structure PaymentAddress where
  shipping : Option AddressEntry
  billing : Option AddressEntry
deriving DecidableEq, Repr

/-- An IP address, kept as its textual rendering (`IpAddr::to_string`). -/
structure IpAddr where
  text : String
deriving DecidableEq, Repr

/-- Browser fingerprint info used for strong customer authentication. -/
structure BrowserInfo where
  ip_address : Option IpAddr
  accept_header : String
  java_script_enabled : Bool
  language : String
  user_agent : String
  screen_width : Nat
deriving DecidableEq, Repr

/-- Connector-agnostic attempt status (`enums::AttemptStatus`); the variants
reachable from the Opayo transformer plus a representative of the rest. -/
inductive AttemptStatus where
  | Charged
  | Failure
  | Authorizing
  | Pending
deriving DecidableEq, Repr

/-- Connector credential variant (`types::ConnectorAuthType`). -/
inductive ConnectorAuthType where
  | HeaderKey : String → ConnectorAuthType
  | BodyKey : String → String → ConnectorAuthType
deriving DecidableEq, Repr

/-- Integration-level error kinds (`errors::ConnectorError`), restricted to the
variants the Opayo transformer can produce. -/
inductive ConnectorError where
  | MissingRequiredField : String → ConnectorError
  | NotImplemented : String → ConnectorError
  | FailedToObtainAuthType : ConnectorError
deriving DecidableEq, Repr

/-- Parsing error (`errors::ParsingError`, a unit struct). -/
inductive ParsingError where
  | mk
deriving DecidableEq, Repr

deriving instance DecidableEq for Except

/-- Structured error payload a domain outcome may carry instead of a response. -/
structure ErrorResponse where
  code : String
  message : String
deriving DecidableEq, Repr

/-- Transaction-reference representation (`types::ResponseId`). -/
inductive ResponseId where
  | ConnectorTransactionId : String → ResponseId
  | EncodedData : String → ResponseId
  | NoResponseId : ResponseId
deriving DecidableEq, Repr

/-- Successful-response payload variants (`types::PaymentsResponseData`). -/
inductive PaymentsResponseData where
  | TransactionResponse (resource_id : ResponseId) (redirection_data : Option String)
      (redirect : Bool) (mandate_reference : Option String)
      (connector_metadata : Option String)
  | SessionResponse (session_token : String)
deriving DecidableEq, Repr

/-- The generic Domain Transaction Model envelope (`types::RouterData`),
parameterized by a flow marker `F` and a connector-specific request payload
`Req`; the outcome field `response` is either a structured error payload or a
successful response payload. -/
structure RouterData (F : Type) (Req : Type) (Resp : Type) where
  merchant_id : String
  payment_id : String
  connector : String
  status : AttemptStatus
  payment_method : PaymentMethod
  connector_auth_type : ConnectorAuthType
  description : Option String
  return_url : Option String
  address : PaymentAddress
  request : Req
  response : Except ErrorResponse Resp
deriving DecidableEq, Repr

/-- Flow marker for the authorize flow: a zero-data tag. -/
inductive Authorize where
  | authorize
deriving DecidableEq, Repr

/-- Connector-specific request payload for the authorize flow
(`types::PaymentsAuthorizeData`), restricted to the fields the Opayo
transformer reads. -/
structure PaymentsAuthorizeData where
  amount : Int
  currency : Currency
  payment_method_data : PaymentMethod
  browser_info : Option BrowserInfo
deriving DecidableEq, Repr

/-- `types::PaymentsAuthorizeRouterData`. -/
abbrev PaymentsAuthorizeRouterData :=
  RouterData Authorize PaymentsAuthorizeData PaymentsResponseData

/-- Envelope pairing a wire response with the domain context it answers
(`types::ResponseRouterData`). -/
structure ResponseRouterData (F : Type) (R : Type) (T : Type) where
  response : R
  data : RouterData F T PaymentsResponseData
  http_code : Nat
deriving DecidableEq, Repr

/-! ## Opayo wire model (`connector/opayo/transformers.rs`) -/

/-- Opayo card session block of the wire request. -/
structure OpayoCardSession where
  merchant_session_key : String
  card_identifier : String
  reusable : Bool
  save : Bool
deriving DecidableEq, Repr

/-- Opayo wire payment-method block. -/
structure OpayoCard where
  card : OpayoCardSession
deriving DecidableEq, Repr

/-- Opayo wire billing address block. -/
structure BillingAddress where
  address1 : Secret String
  city : String
  country : String
  postalCode : Secret String
deriving DecidableEq, Repr

/-- Opayo strong-customer-authentication block. -/
structure CustomerAuthentication where
  notificationURL : String
  browserIP : String
  browserAcceptHeader : String
  browserJavascriptEnabled : Bool
  browserLanguage : String
  browserUserAgent : String
  challengeWindowSize : String
  transType : String
deriving DecidableEq, Repr

/-- Opayo credential-type block (always omitted by the transformer). -/
structure CredentialType where
  coUsage : String
  initiatedType : String
  mitType : String
  recurringExpiry : String
  recurringFrequency : String
  purchaseInstalData : String
deriving DecidableEq, Repr

/-- The Opayo wire payments request (`OpayoPaymentsRequest`). -/
structure OpayoPaymentsRequest where
  transaction_type : String
  payment_method : OpayoCard
  vendor_tx_code : String
  amount : Int
  currency : String
  description : String
  customer_first_name : Secret String
  customer_last_name : Secret String
  billing_address : BillingAddress
  apply3_d_secure : String
  strong_customer_authentication : CustomerAuthentication
  credential_type : Option CredentialType
deriving DecidableEq, Repr

/-- Opayo wire status vocabulary (`OpayoPaymentStatus`). -/
inductive OpayoPaymentStatus where
  | Succeeded
  | Failed
  | Processing
deriving DecidableEq, Repr

/-- Wire-status to domain-status mapping
(`impl From<OpayoPaymentStatus> for enums::AttemptStatus`). -/
def OpayoPaymentStatus.toAttemptStatus : OpayoPaymentStatus → AttemptStatus
  | .Succeeded => .Charged
  | .Failed => .Failure
  | .Processing => .Authorizing

/-- The Opayo wire payments response (`OpayoPaymentsResponse`). -/
structure OpayoPaymentsResponse where
  status : OpayoPaymentStatus
  id : String
deriving DecidableEq, Repr

/-- Challenge-window-size bucketing of the browser screen width
(`getWindowSize` in the Opayo transformer). -/
def getWindowSize (width : Nat) : String :=
  if width ≤ 250 then "Small"
  else if width ≤ 390 then "Medium"
  else if width ≤ 500 then "Large"
  else if width ≤ 600 then "ExtraLarge"
  else "FullScreen"

/-- Rust's `Option::ok_or` followed by `?`, as an `Except` step. -/
def okOr (o : Option α) (e : ConnectorError) : Except ConnectorError α :=
  match o with
  | some v => .ok v
  | none => .error e

/-- The payment-method match inside the Opayo wire request construction:
only `Card(_)` is accepted, everything else is rejected with the fixed
`NotImplemented("Unknown payment method")` error. -/
def opayoCardOf (pm : PaymentMethod) : Except ConnectorError OpayoCard :=
  match pm with
  | .Card _ => Except.ok
      { card :=
        { merchant_session_key := "No idea"
          card_identifier := "No idea"
          reusable := false
          save := false } }
  | _ => Except.error (.NotImplemented "Unknown payment method")

/-- The Opayo wire request construction
(`impl TryFrom<&types::PaymentsAuthorizeRouterData> for OpayoPaymentsRequest`),
with the fallible steps in the evaluation order of the Rust source. -/
def OpayoPaymentsRequest.tryFrom (item : PaymentsAuthorizeRouterData) :
    Except ConnectorError OpayoPaymentsRequest := do
  let amount := item.request.amount
  let currency := item.request.currency.debugFmt
  let description ← okOr item.description (.MissingRequiredField "item.description")
  let vendor_tx_code := item.payment_id
  let payment_method ← opayoCardOf item.request.payment_method_data
  let browser_info ← okOr item.request.browser_info (.MissingRequiredField "browser_info")
  let notification_url ← okOr item.return_url (.MissingRequiredField "notification_url")
  let address ← okOr item.address.billing (.MissingRequiredField "billing_address")
  let actualAddress ← okOr address.address (.MissingRequiredField "billing_address")
  let address1 ← okOr actualAddress.line1 (.MissingRequiredField "address1")
  let city ← okOr actualAddress.city (.MissingRequiredField "city")
  let country ← okOr actualAddress.country (.MissingRequiredField "country")
  let postalCode ← okOr actualAddress.zip (.MissingRequiredField "zip")
  let billing_address : BillingAddress :=
    { address1 := address1, city := city, country := country, postalCode := postalCode }
  let ipAddr ← okOr browser_info.ip_address (.MissingRequiredField "browserIP")
  let strong_customer_authentication : CustomerAuthentication :=
    { notificationURL := notification_url
      browserIP := ipAddr.text
      browserAcceptHeader := browser_info.accept_header
      browserJavascriptEnabled := browser_info.java_script_enabled
      browserLanguage := browser_info.language
      browserUserAgent := browser_info.user_agent
      challengeWindowSize := getWindowSize browser_info.screen_width
      transType := "GoodsAndServicePurchase" }
  let customer_first_name ← okOr actualAddress.first_name (.MissingRequiredField "first_name")
  let customer_last_name ← okOr actualAddress.last_name (.MissingRequiredField "last_name")
  Except.ok
    { transaction_type := "Payment"
      payment_method := payment_method
      vendor_tx_code := vendor_tx_code
      amount := amount
      currency := currency
      description := description
      customer_first_name := customer_first_name
      customer_last_name := customer_last_name
      billing_address := billing_address
      apply3_d_secure := "UseMSPSetting"
      strong_customer_authentication := strong_customer_authentication
      credential_type := none }

/-- The Opayo response reduction (`impl TryFrom<ResponseRouterData<F,
OpayoPaymentsResponse, T, PaymentsResponseData>> for RouterData<F, T,
PaymentsResponseData>`): attach status and outcome, keep the rest of the
domain context via struct update. -/
def opayoHandleResponse (item : ResponseRouterData F OpayoPaymentsResponse T) :
    Except ParsingError (RouterData F T PaymentsResponseData) :=
  Except.ok
    { item.data with
      status := item.response.status.toAttemptStatus
      response := Except.ok (.TransactionResponse
        (.ConnectorTransactionId item.response.id) none false none none) }

/-! ## Refund placeholders (`connector/opayo/transformers.rs`, refund section)

The three refund conversions in the source consist of a bare `todo!()`, a
macro that panics unconditionally. A Rust call can end in a panic instead of
returning its `Result`, so the observable outcome of such a call is embedded
as a three-way sum: `ok`, `err`, or `panics`. -/

/-- Outcome of calling a Rust function returning `Result`: a success value, an
error value, or a panic (the call diverges and produces no `Result` at all). -/
inductive RustResult (ε : Type) (α : Type) where
  | ok : α → RustResult ε α
  | err : ε → RustResult ε α
  | panics : String → RustResult ε α
deriving DecidableEq, Repr

/-- `true` exactly when the call came back with a `Result` value (of either
polarity) rather than panicking. -/
def RustResult.returnsResult : RustResult ε α → Bool
  | .ok _ => true
  | .err _ => true
  | .panics _ => false

/-- Flow marker for the refund execute flow. -/
inductive Execute where
  | execute
deriving DecidableEq, Repr

/-- Flow marker for the refund sync flow. -/
inductive RSync where
  | rsync
deriving DecidableEq, Repr

/-- Refund request payload (`types::RefundsData`), reduced to identity and
monetary fields; the Opayo conversions never inspect it. -/
structure RefundsData where
  refund_id : String
  connector_transaction_id : String
  refund_amount : Int
  currency : Currency
deriving DecidableEq, Repr

/-- Refund status payload of the domain refund outcome. -/
inductive RefundStatusData where
  | mk : String → RefundStatusData
deriving DecidableEq, Repr

/-- `types::RefundsRouterData<F>`: the domain envelope for a refund flow. -/
abbrev RefundsRouterData (F : Type) := RouterData F RefundsData RefundStatusData

/-- The Opayo refund wire request (`OpayoRefundRequest`, an empty struct). -/
structure OpayoRefundRequest where
deriving DecidableEq, Repr

/-- The Opayo refund wire response (`RefundResponse`, an empty struct). -/
structure RefundResponse where
deriving DecidableEq, Repr

/-- Envelope pairing a refund wire response with its domain context
(`types::RefundsResponseRouterData<F, R>`). -/
structure RefundsResponseRouterData (F : Type) (R : Type) where
  response : R
  data : RefundsRouterData F
  http_code : Nat
deriving DecidableEq, Repr

/-- `impl TryFrom<&types::RefundsRouterData<F>> for OpayoRefundRequest`: the
body is `todo!()`, which panics with "not yet implemented" before looking at
the input. -/
def OpayoRefundRequest.tryFrom (_item : RefundsRouterData F) :
    RustResult ParsingError OpayoRefundRequest :=
  .panics "not yet implemented"

/-- `impl TryFrom<RefundsResponseRouterData<Execute, RefundResponse>> for
RefundsRouterData<Execute>`: the body is `todo!()`. -/
def opayoRefundExecuteResponse (_item : RefundsResponseRouterData Execute RefundResponse) :
    RustResult ParsingError (RefundsRouterData Execute) :=
  .panics "not yet implemented"

/-- `impl TryFrom<RefundsResponseRouterData<RSync, RefundResponse>> for
RefundsRouterData<RSync>`: the body is `todo!()`. -/
def opayoRefundSyncResponse (_item : RefundsResponseRouterData RSync RefundResponse) :
    RustResult ParsingError (RefundsRouterData RSync) :=
  .panics "not yet implemented"

/-! ## Error taxonomy (`core/errors.rs`) -/

/-- Authentication error (unit struct from `impl_error_type!`). -/
inductive AuthenticationError where
  | mk
deriving DecidableEq, Repr

/-- Authorisation error (unit struct from `impl_error_type!`). -/
inductive AuthorisationError where
  | mk
deriving DecidableEq, Repr

/-- Encryption error (unit struct from `impl_error_type!`). -/
inductive EncryptionError where
  | mk
deriving DecidableEq, Repr

/-- Unexpected error (unit struct from `impl_error_type!`). -/
inductive UnexpectedError where
  | mk
deriving DecidableEq, Repr

/-- Validation error (unit struct from `impl_error_type!`). -/
inductive ValidateError where
  | mk
deriving DecidableEq, Repr

/-- Database-layer error kinds (`DatabaseError`). -/
inductive DatabaseError where
  | DatabaseConnectionError
  | NotFound
  | UniqueViolation
  | Others
deriving DecidableEq, Repr

/-- An `error_stack::Report` carrying an error value plus attached context. -/
structure Report (ε : Type) where
  current : ε
  frames : List String
deriving DecidableEq, Repr

/-- Environment configuration error (external `config::ConfigError`), kept as
its message. -/
structure ConfigError where
  message : String
deriving DecidableEq, Repr

/-- Metrics error (external `opentelemetry::metrics::MetricsError`), kept as
its message. -/
structure MetricsError where
  message : String
deriving DecidableEq, Repr

/-- I/O error (external `std::io::Error`), kept as its message. -/
structure IoError where
  message : String
deriving DecidableEq, Repr

/-- The top-level API error (`BachError`), one constructor per source variant. -/
inductive BachError where
  | EAuthenticationError : Report AuthenticationError → BachError
  | EAuthorisationError : Report AuthorisationError → BachError
  | NotImplementedByConnector : String → BachError
  | EUnexpectedError : Report UnexpectedError → BachError
  | EParsingError : Report ParsingError → BachError
  | ConfigurationError : ConfigError → BachError
  | EValidationError : Report ValidateError → BachError
  | EDatabaseError : Report DatabaseError → BachError
  | EEncryptionError : Report EncryptionError → BachError
  | EMetrics : MetricsError → BachError
  | EIo : IoError → BachError
deriving DecidableEq, Repr

/-- HTTP status codes used by the mapping, as their numeric values. -/
def StatusCode.BAD_REQUEST : Nat := 400

/-- 500 Internal Server Error. -/
def StatusCode.INTERNAL_SERVER_ERROR : Nat := 500

/-- `impl ResponseError for BachError`, method `status_code`. -/
def BachError.status_code : BachError → Nat
  | .EParsingError _
  | .EAuthenticationError _
  | .EAuthorisationError _
  | .EValidationError _ => StatusCode.BAD_REQUEST
  | .EDatabaseError _
  | .NotImplementedByConnector _
  | .EMetrics _
  | .EIo _
  | .ConfigurationError _
  | .EEncryptionError _
  | .EUnexpectedError _ => StatusCode.INTERNAL_SERVER_ERROR

/-! ## Observation helpers and concrete inputs -/

/-- `true` exactly on a success value. -/
def exceptIsOk : Except ε α → Bool
  | .ok _ => true
  | .error _ => false

/-- The domain outcome field of a reduced envelope, when the reduction
succeeded. -/
def reducedResponse (x : Except ParsingError (RouterData F T PaymentsResponseData)) :
    Option (Except ErrorResponse PaymentsResponseData) :=
  match x with
  | .ok r => some r.response
  | .error _ => none

/-- `true` exactly when a wire-request construction failed with
`NotImplemented`. -/
def isNotImplementedError : Except ConnectorError α → Bool
  | .error (.NotImplemented _) => true
  | _ => false

/-- `true` exactly when a wire-request construction failed with
`MissingRequiredField`. -/
def isMissingRequiredFieldError : Except ConnectorError α → Bool
  | .error (.MissingRequiredField _) => true
  | _ => false

/-- `true` exactly on the card payment-method variant. -/
def isCardMethod : PaymentMethod → Bool
  | .Card _ => true
  | _ => false

/-- The billing address details reachable from an authorize input, if both the
billing entry and its inner address are present. -/
def billingDetails (item : PaymentsAuthorizeRouterData) : Option AddressDetails :=
  item.address.billing.bind fun e => e.address

/-- Relates a `MissingRequiredField` field name produced by the Opayo wire
request construction to the absence, in the input, of the domain field it
names. -/
def reqFieldAbsent (item : PaymentsAuthorizeRouterData) (f : String) : Prop :=
  (f = "item.description" ∧ item.description = none) ∨
  (f = "address1" ∧ (billingDetails item).bind AddressDetails.line1 = none) ∨
  (f = "city" ∧ (billingDetails item).bind AddressDetails.city = none) ∨
  (f = "country" ∧ (billingDetails item).bind AddressDetails.country = none) ∨
  (f = "zip" ∧ (billingDetails item).bind AddressDetails.zip = none) ∨
  (f = "browserIP" ∧ item.request.browser_info.bind BrowserInfo.ip_address = none) ∨
  (f = "notification_url" ∧ item.return_url = none) ∨
  (f = "first_name" ∧ (billingDetails item).bind AddressDetails.first_name = none) ∨
  (f = "last_name" ∧ (billingDetails item).bind AddressDetails.last_name = none)

/-- A concrete card. -/
def sampleCard : CardData :=
  { card_number := ⟨"4242424242424242"⟩
    card_exp_month := ⟨"10"⟩
    card_exp_year := ⟨"2027"⟩
    card_holder_name := ⟨"Ada Lovelace"⟩
    card_cvc := ⟨"123"⟩ }

/-- A complete billing address. -/
def validAddress : AddressDetails :=
  { line1 := some ⟨"1 Main Street"⟩
    city := some "London"
    country := some "GB"
    zip := some ⟨"AB1 2CD"⟩
    first_name := some ⟨"Ada"⟩
    last_name := some ⟨"Lovelace"⟩ }

/-- A complete browser-info block. -/
def validBrowser : BrowserInfo :=
  { ip_address := some ⟨"127.0.0.1"⟩
    accept_header := "*"
    java_script_enabled := true
    language := "en-GB"
    user_agent := "UA"
    screen_width := 480 }

/-- A fully populated authorize input: amount 100 minor units, USD, card,
billing address, browser info, and return URL all present. -/
def validAuthorize : PaymentsAuthorizeRouterData :=
  { merchant_id := "m1"
    payment_id := "pay_1"
    connector := "opayo"
    status := .Pending
    payment_method := .Card sampleCard
    connector_auth_type := .HeaderKey "api-key"
    description := some "order"
    return_url := some "https://merchant.example/return"
    address := { shipping := none, billing := some { address := some validAddress } }
    request :=
      { amount := 100
        currency := .USD
        payment_method_data := .Card sampleCard
        browser_info := some validBrowser }
    response := .error { code := "", message := "" } }

/-- The valid input with the payment method replaced by a wallet. -/
def walletAuthorize : PaymentsAuthorizeRouterData :=
  { validAuthorize with
    request := { validAuthorize.request with payment_method_data := .Wallet } }

/-- The valid input with the payment method replaced by a bank transfer. -/
def bankTransferAuthorize : PaymentsAuthorizeRouterData :=
  { validAuthorize with
    request := { validAuthorize.request with payment_method_data := .BankTransfer } }

/-- A wallet input whose description is also absent. -/
def walletNoDescription : PaymentsAuthorizeRouterData :=
  { walletAuthorize with description := none }

/-- A wallet input whose cardholder first name is absent and whose other
required fields are all present. -/
def walletNoFirstName : PaymentsAuthorizeRouterData :=
  { walletAuthorize with
    address :=
      { shipping := none
        billing := some { address := some { validAddress with first_name := none } } } }

/-- An input missing both its description and its billing address. -/
def noDescriptionNoBilling : PaymentsAuthorizeRouterData :=
  { validAuthorize with
    description := none
    address := { shipping := none, billing := none } }

/-- An otherwise valid input whose billing address is absent. -/
def noBillingAuthorize : PaymentsAuthorizeRouterData :=
  { validAuthorize with address := { shipping := none, billing := none } }

/-- An otherwise valid input whose billing city is absent. -/
def noCityAuthorize : PaymentsAuthorizeRouterData :=
  { validAuthorize with
    address :=
      { shipping := none
        billing := some { address := some { validAddress with city := none } } } }

/-- A domain context awaiting its outcome, used as the `data` part of response
envelopes. -/
def sampleCtx : RouterData Authorize Unit PaymentsResponseData :=
  { merchant_id := "m1"
    payment_id := "pay_1"
    connector := "opayo"
    status := .Pending
    payment_method := .Card sampleCard
    connector_auth_type := .HeaderKey "api-key"
    description := some "order"
    return_url := some "https://merchant.example/return"
    address := { shipping := none, billing := some { address := some validAddress } }
    request := ()
    response := .error { code := "", message := "" } }

/-- A wire response envelope whose status is `Succeeded`. -/
def sampleRespEnvelope : ResponseRouterData Authorize OpayoPaymentsResponse Unit :=
  { response := { status := .Succeeded, id := "txn-1" }
    data := sampleCtx
    http_code := 200 }

/-- The reduced domain context the success envelope produces. -/
def sampleReduced : RouterData Authorize Unit PaymentsResponseData :=
  { sampleCtx with
    status := .Charged
    response := .ok (.TransactionResponse
      (.ConnectorTransactionId "txn-1") none false none none) }

/-! ## Helper lemmas -/

@[simp]
theorem bindExcept_ok (v : α) (f : α → Except ε β) : (Except.ok v >>= f) = f v := rfl

@[simp]
theorem bindExcept_error (e : ε) (f : α → Except ε β) :
    ((Except.error e : Except ε α) >>= f) = Except.error e := rfl

@[simp]
theorem optionBind_some (v : α) (f : α → Option β) : (some v).bind f = f v := rfl

@[simp]
theorem optionBind_none (f : α → Option β) : (none : Option α).bind f = none := rfl

@[simp]
theorem okOr_some (v : α) (e : ConnectorError) : okOr (some v) e = Except.ok v := rfl

@[simp]
theorem okOr_none (e : ConnectorError) : okOr (none : Option α) e = Except.error e := rfl

theorem tf_missing_description (item : PaymentsAuthorizeRouterData)
    (hd : item.description = none) :
    OpayoPaymentsRequest.tryFrom item = .error (.MissingRequiredField "item.description") := by
  simp [OpayoPaymentsRequest.tryFrom, hd]

theorem tf_missing_return_url (item : PaymentsAuthorizeRouterData)
    (d : String) (c : CardData) (bi : BrowserInfo)
    (hd : item.description = some d)
    (hpm : item.request.payment_method_data = .Card c)
    (hbi : item.request.browser_info = some bi)
    (hr : item.return_url = none) :
    OpayoPaymentsRequest.tryFrom item = .error (.MissingRequiredField "notification_url") := by
  simp [OpayoPaymentsRequest.tryFrom, hd, hpm, hbi, hr, opayoCardOf]

theorem tf_missing_line1 (item : PaymentsAuthorizeRouterData)
    (d u : String) (c : CardData) (bi : BrowserInfo) (e : AddressEntry) (a : AddressDetails)
    (hd : item.description = some d)
    (hpm : item.request.payment_method_data = .Card c)
    (hbi : item.request.browser_info = some bi)
    (hr : item.return_url = some u)
    (hb : item.address.billing = some e)
    (ha : e.address = some a)
    (hl1 : a.line1 = none) :
    OpayoPaymentsRequest.tryFrom item = .error (.MissingRequiredField "address1") := by
  simp [OpayoPaymentsRequest.tryFrom, hd, hpm, hbi, hr, hb, ha, hl1, opayoCardOf]

theorem tf_missing_city (item : PaymentsAuthorizeRouterData)
    (d u : String) (c : CardData) (bi : BrowserInfo) (e : AddressEntry) (a : AddressDetails)
    (l1 : Secret String)
    (hd : item.description = some d)
    (hpm : item.request.payment_method_data = .Card c)
    (hbi : item.request.browser_info = some bi)
    (hr : item.return_url = some u)
    (hb : item.address.billing = some e)
    (ha : e.address = some a)
    (hl1 : a.line1 = some l1)
    (hc : a.city = none) :
    OpayoPaymentsRequest.tryFrom item = .error (.MissingRequiredField "city") := by
  simp [OpayoPaymentsRequest.tryFrom, hd, hpm, hbi, hr, hb, ha, hl1, hc, opayoCardOf]

theorem tf_missing_country (item : PaymentsAuthorizeRouterData)
    (d u ci : String) (c : CardData) (bi : BrowserInfo) (e : AddressEntry) (a : AddressDetails)
    (l1 : Secret String)
    (hd : item.description = some d)
    (hpm : item.request.payment_method_data = .Card c)
    (hbi : item.request.browser_info = some bi)
    (hr : item.return_url = some u)
    (hb : item.address.billing = some e)
    (ha : e.address = some a)
    (hl1 : a.line1 = some l1)
    (hc : a.city = some ci)
    (hco : a.country = none) :
    OpayoPaymentsRequest.tryFrom item = .error (.MissingRequiredField "country") := by
  simp [OpayoPaymentsRequest.tryFrom, hd, hpm, hbi, hr, hb, ha, hl1, hc, hco, opayoCardOf]

theorem tf_missing_zip (item : PaymentsAuthorizeRouterData)
    (d u ci co : String) (c : CardData) (bi : BrowserInfo) (e : AddressEntry)
    (a : AddressDetails) (l1 : Secret String)
    (hd : item.description = some d)
    (hpm : item.request.payment_method_data = .Card c)
    (hbi : item.request.browser_info = some bi)
    (hr : item.return_url = some u)
    (hb : item.address.billing = some e)
    (ha : e.address = some a)
    (hl1 : a.line1 = some l1)
    (hc : a.city = some ci)
    (hco : a.country = some co)
    (hz : a.zip = none) :
    OpayoPaymentsRequest.tryFrom item = .error (.MissingRequiredField "zip") := by
  simp [OpayoPaymentsRequest.tryFrom, hd, hpm, hbi, hr, hb, ha, hl1, hc, hco, hz, opayoCardOf]

theorem tf_missing_ip (item : PaymentsAuthorizeRouterData)
    (d u ci co : String) (c : CardData) (bi : BrowserInfo) (e : AddressEntry)
    (a : AddressDetails) (l1 z : Secret String)
    (hd : item.description = some d)
    (hpm : item.request.payment_method_data = .Card c)
    (hbi : item.request.browser_info = some bi)
    (hr : item.return_url = some u)
    (hb : item.address.billing = some e)
    (ha : e.address = some a)
    (hl1 : a.line1 = some l1)
    (hc : a.city = some ci)
    (hco : a.country = some co)
    (hz : a.zip = some z)
    (hip : bi.ip_address = none) :
    OpayoPaymentsRequest.tryFrom item = .error (.MissingRequiredField "browserIP") := by
  simp [OpayoPaymentsRequest.tryFrom, hd, hpm, hbi, hr, hb, ha, hl1, hc, hco, hz, hip,
    opayoCardOf]

theorem tf_missing_first_name (item : PaymentsAuthorizeRouterData)
    (d u ci co : String) (c : CardData) (bi : BrowserInfo) (e : AddressEntry)
    (a : AddressDetails) (l1 z : Secret String) (ip : IpAddr)
    (hd : item.description = some d)
    (hpm : item.request.payment_method_data = .Card c)
    (hbi : item.request.browser_info = some bi)
    (hr : item.return_url = some u)
    (hb : item.address.billing = some e)
    (ha : e.address = some a)
    (hl1 : a.line1 = some l1)
    (hc : a.city = some ci)
    (hco : a.country = some co)
    (hz : a.zip = some z)
    (hip : bi.ip_address = some ip)
    (hf1 : a.first_name = none) :
    OpayoPaymentsRequest.tryFrom item = .error (.MissingRequiredField "first_name") := by
  simp [OpayoPaymentsRequest.tryFrom, hd, hpm, hbi, hr, hb, ha, hl1, hc, hco, hz, hip, hf1,
    opayoCardOf]

theorem tf_missing_last_name (item : PaymentsAuthorizeRouterData)
    (d u ci co : String) (c : CardData) (bi : BrowserInfo) (e : AddressEntry)
    (a : AddressDetails) (l1 z f1 : Secret String) (ip : IpAddr)
    (hd : item.description = some d)
    (hpm : item.request.payment_method_data = .Card c)
    (hbi : item.request.browser_info = some bi)
    (hr : item.return_url = some u)
    (hb : item.address.billing = some e)
    (ha : e.address = some a)
    (hl1 : a.line1 = some l1)
    (hc : a.city = some ci)
    (hco : a.country = some co)
    (hz : a.zip = some z)
    (hip : bi.ip_address = some ip)
    (hf1 : a.first_name = some f1)
    (hf2 : a.last_name = none) :
    OpayoPaymentsRequest.tryFrom item = .error (.MissingRequiredField "last_name") := by
  simp [OpayoPaymentsRequest.tryFrom, hd, hpm, hbi, hr, hb, ha, hl1, hc, hco, hz, hip, hf1,
    hf2, opayoCardOf]

theorem missingFieldConcl (item : PaymentsAuthorizeRouterData) (f : String)
    (hres : OpayoPaymentsRequest.tryFrom item = .error (.MissingRequiredField f))
    (habsf : reqFieldAbsent item f) :
    isMissingRequiredFieldError (OpayoPaymentsRequest.tryFrom item) = true ∧
    ∀ g, OpayoPaymentsRequest.tryFrom item = .error (.MissingRequiredField g) →
      reqFieldAbsent item g := by
  constructor
  · rw [hres]; rfl
  · intro g hg
    rw [hres] at hg
    injection hg with h1
    injection h1 with h2
    exact h2 ▸ habsf

/-! ## Claim theorems -/

/-- C5: for every screen width, the derived challenge-window-size category is
computed through non-overlapping, closed-upper-bound ranges: width ≤ 250 gives
"Small", 250 < width ≤ 390 gives "Medium", 390 < width ≤ 500 gives "Large",
500 < width ≤ 600 gives "ExtraLarge", and width > 600 gives "FullScreen";
`getWindowSize` is a total function, so the bucketing is total and
deterministic. -/
theorem getWindowSize_buckets (w : Nat) :
    (w ≤ 250 → getWindowSize w = "Small") ∧
    (250 < w → w ≤ 390 → getWindowSize w = "Medium") ∧
    (390 < w → w ≤ 500 → getWindowSize w = "Large") ∧
    (500 < w → w ≤ 600 → getWindowSize w = "ExtraLarge") ∧
    (600 < w → getWindowSize w = "FullScreen") := by
  unfold getWindowSize
  refine ⟨fun h => ?_, fun h1 h2 => ?_, fun h1 h2 => ?_, fun h1 h2 => ?_, fun h => ?_⟩ <;>
    split_ifs <;> first | rfl | (exfalso; omega)

/-- C5 witness: the bucketing evaluated at one width per range, including the
boundary value 250. -/
theorem getWindowSize_buckets_witness :
    getWindowSize 250 = "Small" ∧ getWindowSize 300 = "Medium" ∧
    getWindowSize 450 = "Large" ∧ getWindowSize 550 = "ExtraLarge" ∧
    getWindowSize 601 = "FullScreen" :=
  ⟨(getWindowSize_buckets 250).1 (by decide),
   (getWindowSize_buckets 300).2.1 (by decide) (by decide),
   (getWindowSize_buckets 450).2.2.1 (by decide) (by decide),
   (getWindowSize_buckets 550).2.2.2.1 (by decide) (by decide),
   (getWindowSize_buckets 601).2.2.2.2 (by decide)⟩

/-- C6: the HTTP status-code mapping of `BachError` is determined by the
variant alone: the parsing, authentication, authorisation, and validation
variants map to 400 Bad Request, and every other variant (database,
encryption, unexpected, configuration, metrics, I/O, not implemented by
connector) maps to 500 Internal Server Error, for arbitrary payloads. -/
theorem bachError_status_code_mapping
    (ra : Report AuthenticationError) (rz : Report AuthorisationError)
    (ru : Report UnexpectedError) (rp : Report ParsingError)
    (rv : Report ValidateError) (rd : Report DatabaseError)
    (re : Report EncryptionError) (cf : ConfigError) (m : MetricsError)
    (i : IoError) (s : String) :
    (BachError.EParsingError rp).status_code = StatusCode.BAD_REQUEST ∧
    (BachError.EAuthenticationError ra).status_code = StatusCode.BAD_REQUEST ∧
    (BachError.EAuthorisationError rz).status_code = StatusCode.BAD_REQUEST ∧
    (BachError.EValidationError rv).status_code = StatusCode.BAD_REQUEST ∧
    (BachError.EDatabaseError rd).status_code = StatusCode.INTERNAL_SERVER_ERROR ∧
    (BachError.NotImplementedByConnector s).status_code = StatusCode.INTERNAL_SERVER_ERROR ∧
    (BachError.EMetrics m).status_code = StatusCode.INTERNAL_SERVER_ERROR ∧
    (BachError.EIo i).status_code = StatusCode.INTERNAL_SERVER_ERROR ∧
    (BachError.ConfigurationError cf).status_code = StatusCode.INTERNAL_SERVER_ERROR ∧
    (BachError.EEncryptionError re).status_code = StatusCode.INTERNAL_SERVER_ERROR ∧
    (BachError.EUnexpectedError ru).status_code = StatusCode.INTERNAL_SERVER_ERROR :=
  ⟨rfl, rfl, rfl, rfl, rfl, rfl, rfl, rfl, rfl, rfl, rfl⟩

/-- C7: the Opayo wire-status-to-domain-status mapping is total on the three
declared wire variants (Succeeded maps to Charged, Failed to Failure,
Processing to Authorizing, each to exactly one value since it is a function)
and injective: no domain status is the image of two distinct wire variants. -/
theorem opayoStatus_mapping_total_injective :
    OpayoPaymentStatus.toAttemptStatus .Succeeded = .Charged ∧
    OpayoPaymentStatus.toAttemptStatus .Failed = .Failure ∧
    OpayoPaymentStatus.toAttemptStatus .Processing = .Authorizing ∧
    OpayoPaymentStatus.toAttemptStatus .Succeeded ≠
      OpayoPaymentStatus.toAttemptStatus .Failed ∧
    OpayoPaymentStatus.toAttemptStatus .Succeeded ≠
      OpayoPaymentStatus.toAttemptStatus .Processing ∧
    OpayoPaymentStatus.toAttemptStatus .Failed ≠
      OpayoPaymentStatus.toAttemptStatus .Processing := by
  decide

/-- C9: the Opayo refund request conversion and both refund response
conversions (Execute and RSync flows) panic via `todo!` ("not yet
implemented") on every input, so none of them ever returns a `Result` value of
either polarity and no refund flow through the Opayo transformer can
complete. -/
theorem opayo_refund_conversions_panic (F : Type) (i : RefundsRouterData F)
    (j : RefundsResponseRouterData Execute RefundResponse)
    (k : RefundsResponseRouterData RSync RefundResponse) :
    OpayoRefundRequest.tryFrom i = .panics "not yet implemented" ∧
    (OpayoRefundRequest.tryFrom i).returnsResult = false ∧
    opayoRefundExecuteResponse j = .panics "not yet implemented" ∧
    (opayoRefundExecuteResponse j).returnsResult = false ∧
    opayoRefundSyncResponse k = .panics "not yet implemented" ∧
    (opayoRefundSyncResponse k).returnsResult = false :=
  ⟨rfl, rfl, rfl, rfl, rfl, rfl⟩

/-- C1: reducing a wire payments response whose status is `Succeeded` yields a
domain outcome whose attempt status is exactly `Charged` and whose transaction
reference is `ConnectorTransactionId` equal to the wire response's `id`
field, the rest of the context being kept. -/
theorem opayo_success_reduction {F T : Type}
    (item : ResponseRouterData F OpayoPaymentsResponse T)
    (h : item.response.status = .Succeeded) :
    opayoHandleResponse item =
      .ok { item.data with
            status := AttemptStatus.Charged
            response := .ok (.TransactionResponse
              (.ConnectorTransactionId item.response.id) none false none none) } := by
  simp [opayoHandleResponse, h, OpayoPaymentStatus.toAttemptStatus]

/-- C1 witness: the success envelope with id "txn-1" reduces to the charged
context carrying `ConnectorTransactionId "txn-1"`. -/
theorem opayo_success_reduction_witness :
    sampleRespEnvelope.response.status = OpayoPaymentStatus.Succeeded ∧
    opayoHandleResponse sampleRespEnvelope = .ok sampleReduced :=
  ⟨rfl, opayo_success_reduction sampleRespEnvelope rfl⟩

/-- C8: for every wire payments response, including one whose status is
`Failed`, the reduction returns `Ok` (never a parsing error) and always sets
the domain outcome to the successful-response variant: a
`TransactionResponse` carrying the wire `id` as `ConnectorTransactionId`;
the structured-error-payload branch is never produced. -/
theorem opayo_reduction_always_ok {F T : Type}
    (item : ResponseRouterData F OpayoPaymentsResponse T) :
    exceptIsOk (opayoHandleResponse item) = true ∧
    reducedResponse (opayoHandleResponse item) =
      some (.ok (.TransactionResponse
        (.ConnectorTransactionId item.response.id) none false none none)) :=
  ⟨rfl, rfl⟩

/-- C10: the reduction modifies only the status and outcome fields; every
other field of the input domain context (merchant id, payment id, connector,
payment method, auth type, description, return URL, address, and the whole
request payload, hence also amount and currency) is returned unchanged. -/
theorem opayo_reduction_frame {F T : Type}
    (item : ResponseRouterData F OpayoPaymentsResponse T)
    (r : RouterData F T PaymentsResponseData)
    (h : opayoHandleResponse item = .ok r) :
    r.merchant_id = item.data.merchant_id ∧
    r.payment_id = item.data.payment_id ∧
    r.connector = item.data.connector ∧
    r.payment_method = item.data.payment_method ∧
    r.connector_auth_type = item.data.connector_auth_type ∧
    r.description = item.data.description ∧
    r.return_url = item.data.return_url ∧
    r.address = item.data.address ∧
    r.request = item.data.request := by
  unfold opayoHandleResponse at h
  injection h with h1
  subst h1
  exact ⟨rfl, rfl, rfl, rfl, rfl, rfl, rfl, rfl, rfl⟩

/-- C10 witness: the frame equalities evaluated on the concrete success
envelope and its reduced context. -/
theorem opayo_reduction_frame_witness :
    sampleReduced.merchant_id = sampleCtx.merchant_id ∧
    sampleReduced.payment_id = sampleCtx.payment_id ∧
    sampleReduced.connector = sampleCtx.connector ∧
    sampleReduced.payment_method = sampleCtx.payment_method ∧
    sampleReduced.connector_auth_type = sampleCtx.connector_auth_type ∧
    sampleReduced.description = sampleCtx.description ∧
    sampleReduced.return_url = sampleCtx.return_url ∧
    sampleReduced.address = sampleCtx.address ∧
    sampleReduced.request = sampleCtx.request :=
  opayo_reduction_frame sampleRespEnvelope sampleReduced rfl

/-- C3 counterexample: the claim quantifies over every non-card input, but an
input whose payment method is a wallet and whose description is absent is
rejected with `MissingRequiredField "item.description"`, not with
`NotImplemented`; moreover two distinct non-card methods (wallet and bank
transfer) produce the identical fixed message "Unknown payment method", so
the error does not name the offending method. -/
theorem opayo_non_card_cex :
    walletNoDescription.request.payment_method_data = PaymentMethod.Wallet ∧
    OpayoPaymentsRequest.tryFrom walletNoDescription =
      .error (.MissingRequiredField "item.description") ∧
    isNotImplementedError (OpayoPaymentsRequest.tryFrom walletNoDescription) = false ∧
    OpayoPaymentsRequest.tryFrom walletAuthorize =
      .error (.NotImplemented "Unknown payment method") ∧
    OpayoPaymentsRequest.tryFrom bankTransferAuthorize =
      .error (.NotImplemented "Unknown payment method") :=
  ⟨rfl, rfl, rfl, rfl, rfl⟩

/-- C3 (amended): for every domain input whose description is present and
whose payment-method variant is not a card, the wire request construction
rejects it with `NotImplemented` carrying the fixed message "Unknown payment
method" (the offending method is not named). -/
theorem opayo_non_card_rejected (item : PaymentsAuthorizeRouterData) (d : String)
    (hd : item.description = some d)
    (hpm : isCardMethod item.request.payment_method_data = false) :
    OpayoPaymentsRequest.tryFrom item =
      .error (.NotImplemented "Unknown payment method") := by
  cases hpd : item.request.payment_method_data with
  | Card c => rw [hpd] at hpm; simp [isCardMethod] at hpm
  | Wallet => simp [OpayoPaymentsRequest.tryFrom, hd, hpd, opayoCardOf]
  | BankTransfer => simp [OpayoPaymentsRequest.tryFrom, hd, hpd, opayoCardOf]
  | PayLater => simp [OpayoPaymentsRequest.tryFrom, hd, hpd, opayoCardOf]

/-- C3 witness: the wallet input with description present is rejected with the
fixed NotImplemented message. -/
theorem opayo_non_card_rejected_witness :
    walletAuthorize.description = some "order" ∧
    isCardMethod walletAuthorize.request.payment_method_data = false ∧
    OpayoPaymentsRequest.tryFrom walletAuthorize =
      .error (.NotImplemented "Unknown payment method") :=
  ⟨rfl, rfl, opayo_non_card_rejected walletAuthorize "order" rfl rfl⟩

/-- C4 counterexample: the claim quantifies over every input whose billing
address is absent, but when the description is also absent the construction
fails with `MissingRequiredField "item.description"` (the description is
checked first), not with field name "billing_address". -/
theorem opayo_missing_billing_cex :
    noDescriptionNoBilling.address.billing = none ∧
    OpayoPaymentsRequest.tryFrom noDescriptionNoBilling =
      .error (.MissingRequiredField "item.description") ∧
    OpayoPaymentsRequest.tryFrom noDescriptionNoBilling ≠
      .error (.MissingRequiredField "billing_address") := by
  decide

/-- C4 (amended): for every domain input whose description, card payment
method, browser info and return URL are present, if the billing entry is
absent, or present with an absent inner address, the wire request
construction fails with `MissingRequiredField "billing_address"` and no wire
request is produced. -/
theorem opayo_missing_billing (item : PaymentsAuthorizeRouterData)
    (d u : String) (c : CardData) (bi : BrowserInfo)
    (hd : item.description = some d)
    (hpm : item.request.payment_method_data = .Card c)
    (hbi : item.request.browser_info = some bi)
    (hret : item.return_url = some u)
    (hb : item.address.billing = none ∨
      ∃ e, item.address.billing = some e ∧ e.address = none) :
    OpayoPaymentsRequest.tryFrom item = .error (.MissingRequiredField "billing_address") := by
  rcases hb with hb | ⟨e, hb, he⟩
  · simp [OpayoPaymentsRequest.tryFrom, hd, hpm, hbi, hret, hb, opayoCardOf]
  · simp [OpayoPaymentsRequest.tryFrom, hd, hpm, hbi, hret, hb, he, opayoCardOf]

/-- C4 witness: the otherwise valid input with billing absent fails with field
name "billing_address". -/
theorem opayo_missing_billing_witness :
    noBillingAuthorize.address.billing = none ∧
    OpayoPaymentsRequest.tryFrom noBillingAuthorize =
      .error (.MissingRequiredField "billing_address") :=
  ⟨rfl, opayo_missing_billing noBillingAuthorize "order" "https://merchant.example/return"
    sampleCard validBrowser rfl rfl rfl rfl (Or.inl rfl)⟩

/-- C2 counterexample: the claim quantifies over every input on which some
required field is absent, but an input whose cardholder first name is absent
while its payment method is a wallet is rejected with the `NotImplemented`
error (the payment-method match precedes the name checks), not with
`MissingRequiredField`. -/
theorem opayo_missing_field_cex :
    (billingDetails walletNoFirstName).bind AddressDetails.first_name = none ∧
    OpayoPaymentsRequest.tryFrom walletNoFirstName =
      .error (.NotImplemented "Unknown payment method") ∧
    isMissingRequiredFieldError (OpayoPaymentsRequest.tryFrom walletNoFirstName) = false :=
  ⟨rfl, rfl, rfl⟩

/-- C2 (amended): for every domain input whose payment method is a card and
whose billing entry, inner billing address and browser info are present, if
any of the required fields (description, address line 1, city, country,
postal code, browser IP, return URL, cardholder first name, cardholder last
name) is absent, the wire request construction fails with
`MissingRequiredField` — so no wire request is produced — and the field name
it carries identifies a field that is indeed absent in the input (the first
absent one in the code's check order). -/
theorem opayo_missing_field_named (item : PaymentsAuthorizeRouterData)
    (c : CardData) (e : AddressEntry) (a : AddressDetails) (bi : BrowserInfo)
    (hpm : item.request.payment_method_data = .Card c)
    (hb : item.address.billing = some e)
    (ha : e.address = some a)
    (hbi : item.request.browser_info = some bi)
    (habs : item.description = none ∨ a.line1 = none ∨ a.city = none ∨
      a.country = none ∨ a.zip = none ∨ bi.ip_address = none ∨
      item.return_url = none ∨ a.first_name = none ∨ a.last_name = none) :
    isMissingRequiredFieldError (OpayoPaymentsRequest.tryFrom item) = true ∧
    ∀ g, OpayoPaymentsRequest.tryFrom item = .error (.MissingRequiredField g) →
      reqFieldAbsent item g := by
  rcases hd : item.description with _ | d
  · exact missingFieldConcl item _ (tf_missing_description item hd) (Or.inl ⟨rfl, hd⟩)
  rcases hr : item.return_url with _ | u
  · exact missingFieldConcl item _ (tf_missing_return_url item d c bi hd hpm hbi hr)
      (Or.inr (Or.inr (Or.inr (Or.inr (Or.inr (Or.inr (Or.inl ⟨rfl, hr⟩)))))))
  rcases hl1 : a.line1 with _ | l1
  · exact missingFieldConcl item _
      (tf_missing_line1 item d u c bi e a hd hpm hbi hr hb ha hl1)
      (Or.inr (Or.inl ⟨rfl, by simp [billingDetails, hb, ha, hl1]⟩))
  rcases hc : a.city with _ | ci
  · exact missingFieldConcl item _
      (tf_missing_city item d u c bi e a l1 hd hpm hbi hr hb ha hl1 hc)
      (Or.inr (Or.inr (Or.inl ⟨rfl, by simp [billingDetails, hb, ha, hc]⟩)))
  rcases hco : a.country with _ | co
  · exact missingFieldConcl item _
      (tf_missing_country item d u ci c bi e a l1 hd hpm hbi hr hb ha hl1 hc hco)
      (Or.inr (Or.inr (Or.inr (Or.inl ⟨rfl, by simp [billingDetails, hb, ha, hco]⟩))))
  rcases hz : a.zip with _ | z
  · exact missingFieldConcl item _
      (tf_missing_zip item d u ci co c bi e a l1 hd hpm hbi hr hb ha hl1 hc hco hz)
      (Or.inr (Or.inr (Or.inr (Or.inr (Or.inl ⟨rfl, by simp [billingDetails, hb, ha, hz]⟩)))))
  rcases hip : bi.ip_address with _ | ip
  · exact missingFieldConcl item _
      (tf_missing_ip item d u ci co c bi e a l1 z hd hpm hbi hr hb ha hl1 hc hco hz hip)
      (Or.inr (Or.inr (Or.inr (Or.inr (Or.inr (Or.inl ⟨rfl, by simp [hbi, hip]⟩))))))
  rcases hf1 : a.first_name with _ | f1
  · exact missingFieldConcl item _
      (tf_missing_first_name item d u ci co c bi e a l1 z ip hd hpm hbi hr hb ha hl1 hc hco
        hz hip hf1)
      (Or.inr (Or.inr (Or.inr (Or.inr (Or.inr (Or.inr (Or.inr
        (Or.inl ⟨rfl, by simp [billingDetails, hb, ha, hf1]⟩))))))))
  rcases hf2 : a.last_name with _ | f2
  · exact missingFieldConcl item _
      (tf_missing_last_name item d u ci co c bi e a l1 z f1 ip hd hpm hbi hr hb ha hl1 hc
        hco hz hip hf1 hf2)
      (Or.inr (Or.inr (Or.inr (Or.inr (Or.inr (Or.inr (Or.inr (Or.inr
        ⟨rfl, by simp [billingDetails, hb, ha, hf2]⟩))))))))
  rcases habs with h | h | h | h | h | h | h | h | h <;> simp_all

/-- C2 witness: the input whose billing city is absent fails with a
MissingRequiredField error, and the field name it carries ("city") is indeed
absent in the input. -/
theorem opayo_missing_field_named_witness :
    isMissingRequiredFieldError (OpayoPaymentsRequest.tryFrom noCityAuthorize) = true ∧
    reqFieldAbsent noCityAuthorize "city" := by
  have h := opayo_missing_field_named noCityAuthorize sampleCard
    { address := some { validAddress with city := none } }
    { validAddress with city := none } validBrowser rfl rfl rfl rfl
    (Or.inr (Or.inr (Or.inl rfl)))
  exact ⟨h.1, h.2 "city" rfl⟩

end Hyperswitch
